import Mathlib

/-!
# Dashboard.jsx: distance computation and point-of-interest aggregation

A shallow embedding of `src/src/Dashboard.jsx`.

* JavaScript numbers are modelled by exact real numbers: `Math.sin`, `Math.cos`,
  `Math.sqrt`, `Math.atan2` and `Math.PI` are the real functions and the real
  constant, so the rounding of IEEE doubles and the value `NaN` are not part of
  the model. The model and the program agree up to rounding only: the lemmas
  marked "exact arithmetic" below are facts about the formula, and the rounded
  program can differ from them (the two argument orders of `getDistanceMiles`
  in the last bit, the haversine term rounding above 1 at antipodal points).
* The geocoder and the places service are external: they are a record of
  functions giving, for each request, the outcome the component observes
  (a thrown error, an absent result, or a list of results). Every request is
  answered, and the answer depends on the request only.
* `try`/`catch` is modelled with `Except`; the `data` array and the
  `console.error` log are passed explicitly through the loop over the lines.
* `handleSubmit` is modelled from the array `lines` on (line 51); the split of
  the text area into lines and the map widgets are not modelled.
-/

namespace Dashboard

open Real

/-! ## Data model -/

/-- Literal of the form `{ lat, lng }`. -/
structure LatLng where
  lat : ℝ
  lng : ℝ

/-- Line 8: `const CHAINS = ['Target', 'Marshalls', "Trader Joe's"]`. -/
def CHAINS : List String := ["Target", "Marshalls", "Trader Joe\x27s"]

/-- Line 16: `const STANFORD_COORDS = { lat: 37.4275, lng: -122.1697 }`. -/
noncomputable def STANFORD_COORDS : LatLng := { lat := 37.4275, lng := -122.1697 }

/-- Line 43: `const mapCenter = useMemo(() => ({ lat: 37.3861, lng: -122.0839 }), [])`. -/
noncomputable def mapCenter : LatLng := { lat := 37.3861, lng := -122.0839 }

/-! ## getDistanceMiles (lines 19-31) -/

/-- Line 20: `const toRad = x => (x * Math.PI) / 180`. -/
noncomputable def toRad (x : ℝ) : ℝ := (x * π) / 180

/-- Real-number reading of `Math.atan2(y, x)`: the angle in `(-π, π]` of the
point `(x, y)`, with `atan2(0, 0) = 0`. -/
noncomputable def atan2 (y x : ℝ) : ℝ :=
  if 0 < x then arctan (y / x)
  else if x < 0 then (if 0 ≤ y then arctan (y / x) + π else arctan (y / x) - π)
  else if 0 < y then π / 2
  else if y < 0 then -(π / 2)
  else 0

/-- Line 28: the haversine term `aa`, with the locals of lines 22-27. -/
noncomputable def haversineTerm (a b : LatLng) : ℝ :=
  let dLat := toRad (b.lat - a.lat)
  let dLng := toRad (b.lng - a.lng)
  let lat1 := toRad a.lat
  let lat2 := toRad b.lat
  let sinDlat := sin (dLat / 2)
  let sinDlng := sin (dLng / 2)
  sinDlat * sinDlat + sinDlng * sinDlng * cos lat1 * cos lat2

/-- Lines 19-31: `function getDistanceMiles(a, b)`. -/
noncomputable def getDistanceMiles (a b : LatLng) : ℝ :=
  let R : ℝ := 3958.8
  let aa := haversineTerm a b
  let c := 2 * atan2 (√aa) (√(1 - aa))
  R * c

/-! ## Number.prototype.toFixed -/

/-- Decimal rendering of `n / 10 ^ f` with exactly `f` fractional digits: the
digits of `n`, padded on the left with zeros to `f + 1` digits, with a point
before the last `f` digits. -/
def fixedDigits (n f : ℕ) : String :=
  let m := Nat.toDigits 10 n
  let m := if m.length ≤ f then List.replicate (f + 1 - m.length) '0' ++ m else m
  let k := m.length
  if f = 0 then String.mk m else String.mk (m.take (k - f) ++ '.' :: m.drop (k - f))

/-- The method `x.toFixed(f)` for a number of absolute value below `10 ^ 21`
(every distance is at most `π * 3958.8`): the sign, then the rendering of the
integer `n` for which `n / 10 ^ f - |x|` is closest to zero, the larger `n`
when there are two. -/
noncomputable def toFixed (x : ℝ) (f : ℕ) : String :=
  if x < 0 then "-" ++ fixedDigits ⌊-x * 10 ^ f + 1 / 2⌋₊ f
  else fixedDigits ⌊x * 10 ^ f + 1 / 2⌋₊ f

/-! ## External services -/

/-- A geocoder result; `geometry.location` is the only part read (line 56). -/
structure GeocoderResult where
  location : LatLng

/-- A place returned by `nearbySearch`; `name` and `geometry.location` are the
only parts read (lines 68-69 and 93-94). -/
structure PlaceResult where
  name : String
  location : LatLng

/-- The varying field of a `nearbySearch` request: `type` (line 63) or
`keyword` (line 87). -/
inductive SearchKey where
  | type (t : String)
  | keyword (k : String)

/-- What the component observes of the two services. `geocode addr` is the
outcome of `await geocoder.geocode({ address: addr })`: a thrown error, or the
`results` field of the response, which may be absent. `nearbySearch location key`
is the outcome of the promise wrapped around `placesService.nearbySearch`: a
thrown error, or the first argument of the callback, which may be absent. -/
structure Services where
  geocode : String → Except Unit (Option (List GeocoderResult))
  nearbySearch : LatLng → SearchKey → Except Unit (Option (List PlaceResult))

/-! ## Result records -/

/-- The object `p` of lines 69-70. -/
structure Poi where
  name : String
  position : LatLng
  distance : String

/-- The object `p` of lines 94-95. -/
structure ChainPoi where
  chain : String
  name : String
  position : LatLng
  distance : String

/-- The object `{ gyms, groceries, parks, chains }` of line 107. -/
structure Pois where
  gyms : List Poi
  groceries : List Poi
  parks : List Poi
  chains : List ChainPoi

/-- The object pushed to `data` at lines 103-108. -/
structure Entry where
  address : String
  position : LatLng
  distanceFromStanford : String
  pois : Pois

/-! ## handleSubmit (lines 45-115) -/

/-- Lines 60-73: `fetchByType`, for the `position` of the enclosing scope. -/
noncomputable def fetchByType (svc : Services) (position : LatLng) (type : String) :
    Except Unit (List Poi) :=
  match svc.nearbySearch position (SearchKey.type type) with
  | Except.error e => Except.error e
  | Except.ok results =>
    Except.ok (((results.getD []).take 6).map fun place =>
      let pLoc := place.location
      let pPosition : LatLng := { lat := pLoc.lat, lng := pLoc.lng }
      { name := place.name, position := pPosition,
        distance := toFixed (getDistanceMiles position pPosition) 2 })

/-- Lines 83-98: the loop over the chain names, with the array `chains` built
so far. Indexing an absent `res` at line 91 throws. -/
noncomputable def fetchChains (svc : Services) (position : LatLng) :
    List String → List ChainPoi → Except Unit (List ChainPoi)
  | [], chains => Except.ok chains
  | chainName :: rest, chains =>
    match svc.nearbySearch position (SearchKey.keyword chainName) with
    | Except.error e => Except.error e
    | Except.ok none => Except.error ()
    | Except.ok (some res) =>
      match res.head? with
      | some place =>
        let pLoc := place.location
        let pPosition : LatLng := { lat := pLoc.lat, lng := pLoc.lng }
        fetchChains svc position rest
          (chains ++ [{ chain := chainName, name := place.name, position := pPosition,
                        distance := toFixed (getDistanceMiles position pPosition) 2 }])
      | none => fetchChains svc position rest chains

/-- Lines 54-109: the body of the `try` block for one address. The result is
`error` when an exception reaches the `catch`, `ok none` when the guard of
line 55 fails, and `ok (some entry)` when `entry` is pushed to `data`. The
three promises of `Promise.all` are awaited together: a rejection of any of
them is thrown at line 76. -/
noncomputable def processAddress (svc : Services) (addr : String) :
    Except Unit (Option Entry) :=
  match svc.geocode addr with
  | Except.error e => Except.error e
  | Except.ok resArr =>
    match (resArr.getD []).head? with
    | none => Except.ok none
    | some first =>
      let loc := first.location
      let position : LatLng := { lat := loc.lat, lng := loc.lng }
      match fetchByType svc position "gym",
            fetchByType svc position "grocery_or_supermarket",
            fetchByType svc position "park" with
      | Except.ok gyms, Except.ok groceries, Except.ok parks =>
        match fetchChains svc position CHAINS [] with
        | Except.error e => Except.error e
        | Except.ok chains =>
          let distStanford := toFixed (getDistanceMiles STANFORD_COORDS position) 2
          Except.ok (some
            { address := addr, position := position, distanceFromStanford := distStanford,
              pois := { gyms := gyms, groceries := groceries, parks := parks,
                        chains := chains } })
      | _, _, _ => Except.error ()

/-- The array `data` and the addresses reported through `console.error`. -/
structure SubmitState where
  data : List Entry
  errors : List String

/-- Lines 52-113: one iteration of the loop over `lines`. -/
noncomputable def handleLine (svc : Services) (st : SubmitState) (addr : String) :
    SubmitState :=
  match processAddress svc addr with
  | Except.ok (some entry) => { st with data := st.data ++ [entry] }
  | Except.ok none => st
  | Except.error _ => { st with errors := st.errors ++ [addr] }

/-- Lines 51-114: `handleSubmit` from the array `lines` on; `data` of the final
state is what `setPoiData` receives. -/
noncomputable def handleSubmit (svc : Services) (lines : List String) : SubmitState :=
  lines.foldl (handleLine svc) { data := [], errors := [] }

/-! ## Display (lines 163, 170 and 180) -/

/-- Line 170: `{p.name} — {p.distance} mi`. -/
def renderPoi (p : Poi) : String :=
  p.name ++ " — " ++ p.distance ++ " mi"

/-- Line 180: `{c.chain}: {c.name} — {c.distance} mi`. -/
def renderChain (c : ChainPoi) : String :=
  c.chain ++ ": " ++ c.name ++ " — " ++ c.distance ++ " mi"

/-- Line 163: `Distance from Stanford: {selected.distanceFromStanford} mi`. -/
def renderDistanceFromStanford (e : Entry) : String :=
  "Distance from Stanford: " ++ e.distanceFromStanford ++ " mi"

/-! ## Auxiliary definitions used in the statements -/

/-- Lines 92-96 for one chain name whose lookup returned the list `res`: the
entry pushed to `chains`, if `res[0]` exists. -/
noncomputable def chainEntry (position : LatLng) (chainName : String)
    (res : List PlaceResult) : Option ChainPoi :=
  res.head?.map fun place =>
    { chain := chainName, name := place.name, position := place.location,
      distance := toFixed (getDistanceMiles position place.location) 2 }

/-- The entry, if any, that the loop of lines 84-98 pushes for one chain name. -/
noncomputable def chainLookup (svc : Services) (position : LatLng) (chainName : String) :
    Option ChainPoi :=
  match svc.nearbySearch position (SearchKey.keyword chainName) with
  | Except.ok (some res) => chainEntry position chainName res
  | _ => none

/-- An address is resolved and processed successfully when geocoding gives a
first result, none of the three category lookups throws, and every chain
lookup returns a list (possibly empty). -/
def processedOk (svc : Services) (addr : String) : Bool :=
  match svc.geocode addr with
  | Except.ok (some (first :: _)) =>
    (["gym", "grocery_or_supermarket", "park"].all fun t =>
      (svc.nearbySearch first.location (SearchKey.type t)).toBool) &&
    (CHAINS.all fun kw =>
      match svc.nearbySearch first.location (SearchKey.keyword kw) with
      | Except.ok (some _) => true
      | _ => false)
  | _ => false

/-! ## Concrete services used in the examples -/

/-- The point `{ lat: 0, lng: 0 }`. -/
noncomputable def origin : LatLng := { lat := 0, lng := 0 }

/-- Seven places at the origin, named `G1` to `G7`. -/
noncomputable def sevenGyms : List PlaceResult :=
  [{ name := "G1", location := origin }, { name := "G2", location := origin },
   { name := "G3", location := origin }, { name := "G4", location := origin },
   { name := "G5", location := origin }, { name := "G6", location := origin },
   { name := "G7", location := origin }]

/-- A service: the address `B` fails to geocode and every other address is
at the origin; the gym lookup returns seven places, the grocery lookup an
absent result, the park lookup one place a quarter of the equator away; the
keyword `Target` matches a branch and the other keywords match nothing. -/
noncomputable def svcSample : Services where
  geocode := fun addr =>
    if addr = "B" then Except.error () else Except.ok (some [{ location := origin }])
  nearbySearch := fun _ key =>
    match key with
    | SearchKey.type t =>
      if t = "gym" then Except.ok (some sevenGyms)
      else if t = "park" then
        Except.ok (some [{ name := "P", location := { lat := 0, lng := 90 } }])
      else Except.ok none
    | SearchKey.keyword k =>
      if k = "Target" then
        Except.ok (some [{ name := "Target Store T-1234", location := origin }])
      else Except.ok (some [])

/-- A service whose gym lookup throws; the other lookups return lists. -/
noncomputable def svcGymThrows : Services where
  geocode := fun _ => Except.ok (some [{ location := origin }])
  nearbySearch := fun _ key =>
    match key with
    | SearchKey.type t =>
      if t = "gym" then Except.error ()
      else Except.ok (some [{ name := "P", location := origin }])
    | SearchKey.keyword _ => Except.ok (some [])

/-- A service whose lookup for the keyword `Target` returns an absent result;
every other lookup returns an empty list. -/
noncomputable def svcTargetAbsent : Services where
  geocode := fun _ => Except.ok (some [{ location := origin }])
  nearbySearch := fun _ key =>
    match key with
    | SearchKey.type _ => Except.ok (some [])
    | SearchKey.keyword k => if k = "Target" then Except.ok none else Except.ok (some [])

/-- The record expected for the address `A` with the service `svcSample`. -/
noncomputable def sampleEntry : Entry :=
  { address := "A", position := origin,
    distanceFromStanford := toFixed (getDistanceMiles STANFORD_COORDS origin) 2,
    pois :=
      { gyms :=
          [{ name := "G1", position := origin, distance := "0.00" },
           { name := "G2", position := origin, distance := "0.00" },
           { name := "G3", position := origin, distance := "0.00" },
           { name := "G4", position := origin, distance := "0.00" },
           { name := "G5", position := origin, distance := "0.00" },
           { name := "G6", position := origin, distance := "0.00" }],
        groceries := [],
        parks := [{ name := "P", position := { lat := 0, lng := 90 }, distance := "6218.47" }],
        chains :=
          [{ chain := "Target", name := "Target Store T-1234", position := origin,
             distance := "0.00" }] } }

/-- The string `s` is the number `d` rounded to two decimal places: the
rendering of an integer number `n` of hundredths with `n / 100` within half a
hundredth of `d`. -/
def IsRounded2 (s : String) (d : ℝ) : Prop :=
  ∃ n : ℕ, s = fixedDigits n 2 ∧ |(n : ℝ) / 100 - d| ≤ 1 / 200

/-! ## Theorems -/

theorem haversineTerm_same (a : LatLng) : haversineTerm a a = 0 := by
  simp [haversineTerm, toRad]

theorem getDistanceMiles_same (a : LatLng) : getDistanceMiles a a = 0 := by
  simp [getDistanceMiles, haversineTerm_same, atan2]

/-- C1: for every coordinate `a`, with any real latitude and longitude,
`getDistanceMiles(a, a)` equals `0`. -/
theorem getDistanceMiles_self (a : LatLng) : getDistanceMiles a a = 0 := by
  have h : haversineTerm a a = 0 := by
    simp only [haversineTerm, toRad, sub_self, zero_mul, zero_div, sin_zero, mul_zero,
      add_zero]
  have h1 : (0 : ℝ) < 1 := one_pos
  simp only [getDistanceMiles, h, Real.sqrt_zero, sub_zero, Real.sqrt_one, atan2, h1,
    if_true, zero_div, arctan_zero, mul_zero]

/-- Exact arithmetic: the formula is symmetric in its two arguments. The
program evaluates the product of line 28 from left to right in doubles, so its
two argument orders agree up to rounding only. -/
theorem getDistanceMiles_symm_exact (a b : LatLng) :
    getDistanceMiles a b = getDistanceMiles b a := by
  have h : haversineTerm a b = haversineTerm b a := by
    simp only [haversineTerm, toRad]
    have e1 : (a.lat - b.lat) * π / 180 / 2 = -((b.lat - a.lat) * π / 180 / 2) := by ring
    have e2 : (a.lng - b.lng) * π / 180 / 2 = -((b.lng - a.lng) * π / 180 / 2) := by ring
    rw [e1, e2, sin_neg, sin_neg]
    ring
  simp only [getDistanceMiles, h]

/-! ### Range of the haversine term and of the distance in exact arithmetic -/

theorem sin_half_mul_self (t : ℝ) : sin (t / 2) * sin (t / 2) = (1 - cos t) / 2 := by
  have h := Real.cos_two_mul (t / 2)
  have h2 := sin_sq_add_cos_sq (t / 2)
  rw [show 2 * (t / 2) = t by ring] at h
  nlinarith

/-- The haversine term is `(1 - u·v) / 2` for the unit vectors `u`, `v` of the
two points. -/
theorem haversineTerm_eq (a b : LatLng) :
    haversineTerm a b =
      (1 - (sin (toRad a.lat) * sin (toRad b.lat) +
        cos (toRad a.lat) * cos (toRad b.lat) * cos (toRad b.lng - toRad a.lng))) / 2 := by
  have e1 : toRad (b.lat - a.lat) = toRad b.lat - toRad a.lat := by
    simp only [toRad]; ring
  have e2 : toRad (b.lng - a.lng) = toRad b.lng - toRad a.lng := by
    simp only [toRad]; ring
  simp only [haversineTerm]
  rw [e1, e2, sin_half_mul_self, sin_half_mul_self, cos_sub]
  ring

theorem haversineTerm_nonneg (a b : LatLng) : 0 ≤ haversineTerm a b := by
  rw [haversineTerm_eq]
  have h1 := sin_sq_add_cos_sq (toRad a.lat)
  have h2 := sin_sq_add_cos_sq (toRad b.lat)
  have hk : cos (toRad b.lng - toRad a.lng) ^ 2 ≤ 1 := cos_sq_le_one _
  generalize sin (toRad a.lat) = s1 at *
  generalize cos (toRad a.lat) = c1 at *
  generalize sin (toRad b.lat) = s2 at *
  generalize cos (toRad b.lat) = c2 at *
  generalize cos (toRad b.lng - toRad a.lng) = k at *
  nlinarith [sq_nonneg (s1 - s2), sq_nonneg (c1 - c2 * k), sq_nonneg c2,
    mul_nonneg (sq_nonneg c2) (sub_nonneg.2 hk)]

theorem haversineTerm_le_one (a b : LatLng) : haversineTerm a b ≤ 1 := by
  rw [haversineTerm_eq]
  have h1 := sin_sq_add_cos_sq (toRad a.lat)
  have h2 := sin_sq_add_cos_sq (toRad b.lat)
  have hk : cos (toRad b.lng - toRad a.lng) ^ 2 ≤ 1 := cos_sq_le_one _
  generalize sin (toRad a.lat) = s1 at *
  generalize cos (toRad a.lat) = c1 at *
  generalize sin (toRad b.lat) = s2 at *
  generalize cos (toRad b.lat) = c2 at *
  generalize cos (toRad b.lng - toRad a.lng) = k at *
  nlinarith [sq_nonneg (s1 + s2), sq_nonneg (c1 + c2 * k), sq_nonneg c2,
    mul_nonneg (sq_nonneg c2) (sub_nonneg.2 hk)]

/-- In the closed first quadrant `atan2` lies in `[0, π/2]`. -/
theorem atan2_mem_Icc {y x : ℝ} (hy : 0 ≤ y) (hx : 0 ≤ x) :
    0 ≤ atan2 y x ∧ atan2 y x ≤ π / 2 := by
  unfold atan2
  have hpi : 0 < π := pi_pos
  have hx0 : ¬ x < 0 := not_lt.2 hx
  have hy0 : ¬ y < 0 := not_lt.2 hy
  by_cases h1 : 0 < x
  · have h0 : arctan 0 ≤ arctan (y / x) := arctan_strictMono.monotone (div_nonneg hy hx)
    rw [arctan_zero] at h0
    simp only [h1, if_true]
    exact ⟨h0, (arctan_lt_pi_div_two _).le⟩
  · by_cases h2 : 0 < y
    · simp only [h1, hx0, h2, if_true, if_false]
      constructor <;> linarith
    · simp only [h1, hx0, h2, hy0, if_false]
      constructor <;> linarith

theorem getDistanceMiles_nonneg (a b : LatLng) : 0 ≤ getDistanceMiles a b := by
  have h := (atan2_mem_Icc (Real.sqrt_nonneg (haversineTerm a b))
    (Real.sqrt_nonneg (1 - haversineTerm a b))).1
  simp only [getDistanceMiles]
  positivity

theorem getDistanceMiles_le (a b : LatLng) : getDistanceMiles a b ≤ π * 3958.8 := by
  have h := (atan2_mem_Icc (Real.sqrt_nonneg (haversineTerm a b))
    (Real.sqrt_nonneg (1 - haversineTerm a b))).2
  simp only [getDistanceMiles]
  nlinarith

/-- Exact arithmetic: for every pair of coordinates the haversine term lies in
`[0, 1]` and the distance in `[0, π * 3958.8]`. Line 28 has no clamp, so in
doubles the term can round above 1 at antipodal points, where
`Math.sqrt(1 - aa)` is `NaN`. -/
theorem getDistanceMiles_range_exact (a b : LatLng) :
    (0 ≤ haversineTerm a b ∧ haversineTerm a b ≤ 1) ∧
    (0 ≤ haversineTerm a b ∧ 0 ≤ 1 - haversineTerm a b) ∧
    (0 ≤ getDistanceMiles a b ∧ getDistanceMiles a b ≤ π * 3958.8) :=
  ⟨⟨haversineTerm_nonneg a b, haversineTerm_le_one a b⟩,
   ⟨haversineTerm_nonneg a b, sub_nonneg.2 (haversineTerm_le_one a b)⟩,
   ⟨getDistanceMiles_nonneg a b, getDistanceMiles_le a b⟩⟩

/-! ### The distance between the reference point and the map centre -/

theorem cos_lower (x : ℝ) (hx : x ^ 2 ≤ 8) : 1 - x ^ 2 / 2 + x ^ 4 / 32 ≤ cos x := by
  have h1 : 1 - (x / 2) ^ 2 / 2 ≤ cos (x / 2) := one_sub_sq_div_two_le_cos
  have h2 := Real.cos_two_mul (x / 2)
  rw [show 2 * (x / 2) = x by ring] at h2
  have h3 : 0 ≤ 1 - (x / 2) ^ 2 / 2 := by nlinarith
  have h4 : (1 - (x / 2) ^ 2 / 2) ^ 2 ≤ cos (x / 2) ^ 2 := pow_le_pow_left₀ h3 h1 2
  nlinarith

theorem cos_upper (x : ℝ) (hx : |x| ≤ 1) : cos x ≤ 1 - x ^ 2 / 2 + x ^ 4 * (5 / 96) := by
  have h := cos_bound hx
  rw [abs_le] at h
  have : |x| ^ 4 = x ^ 4 := by
    rw [show (4 : ℕ) = 2 * 2 by norm_num, pow_mul, pow_mul, sq_abs]
  rw [this] at h
  linarith [h.2]

theorem arctan_le_self_of_nonneg {t : ℝ} (ht : 0 ≤ t) : arctan t ≤ t := by
  rcases ht.eq_or_lt with h | h
  · rw [← h, arctan_zero]
  · have h0 : 0 < arctan t := by
      have := arctan_strictMono h
      rwa [arctan_zero] at this
    have := lt_tan h0 (arctan_lt_pi_div_two t)
    rw [tan_arctan] at this
    exact this.le

theorem le_arctan_sqrt {h : ℝ} (h0 : 0 ≤ h) (h1 : h < 1) :
    √h ≤ arctan (√h / √(1 - h)) := by
  have hx : √h ∈ Set.Ioo (-(1 : ℝ)) 1 := by
    constructor
    · linarith [Real.sqrt_nonneg h]
    · rw [show (1:ℝ) = √1 by simp]
      exact Real.sqrt_lt_sqrt h0 h1
  have := arcsin_eq_arctan hx
  rw [Real.sq_sqrt h0] at this
  rw [← this]
  have h2 : 0 ≤ arcsin (√h) := arcsin_nonneg.2 (Real.sqrt_nonneg h)
  have h3 := sin_le h2
  rwa [sin_arcsin (by linarith [hx.1]) hx.2.le] at h3

theorem cos_interval (x lo hi : ℝ) (h0 : 0 ≤ lo) (h1 : lo ≤ x) (h2 : x ≤ hi) (h3 : hi ≤ 1) :
    1 - hi ^ 2 / 2 + lo ^ 4 / 32 ≤ cos x ∧ cos x ≤ 1 - lo ^ 2 / 2 + hi ^ 4 * (5 / 96) := by
  have hx0 : 0 ≤ x := h0.trans h1
  have a1 : x ^ 2 ≤ hi ^ 2 := pow_le_pow_left₀ hx0 h2 2
  have a2 : lo ^ 2 ≤ x ^ 2 := pow_le_pow_left₀ h0 h1 2
  have a3 : x ^ 4 ≤ hi ^ 4 := pow_le_pow_left₀ hx0 h2 4
  have a4 : lo ^ 4 ≤ x ^ 4 := pow_le_pow_left₀ h0 h1 4
  have a5 : hi ^ 2 ≤ 1 := pow_le_one₀ (hx0.trans h2) h3
  have b1 := cos_lower x (by linarith)
  have b2 := cos_upper x (by rw [abs_of_nonneg hx0]; linarith)
  constructor <;> linarith

theorem sin_interval (x lo hi : ℝ) (h0 : 0 < lo) (h1 : lo ≤ x) (h2 : x ≤ hi) (h3 : hi ≤ 1) :
    lo - hi ^ 3 / 4 ≤ sin x ∧ sin x ≤ hi := by
  have hx0 : 0 < x := h0.trans_le h1
  have a1 : x ^ 3 ≤ hi ^ 3 := pow_le_pow_left₀ hx0.le h2 3
  have b1 := sin_gt_sub_cube hx0 (h2.trans h3)
  have b2 := sin_lt hx0
  constructor <;> linarith

theorem haversineTerm_stanford_mapCenter :
    (4.82e-7 : ℝ) ≤ haversineTerm STANFORD_COORDS mapCenter ∧
      haversineTerm STANFORD_COORDS mapCenter ≤ 4.87e-7 := by
  have p1 := pi_gt_d6
  have p2 := pi_lt_d6
  have e1 : toRad (mapCenter.lat - STANFORD_COORDS.lat) / 2 = -(23 / 200000 * π) := by
    simp only [toRad, mapCenter, STANFORD_COORDS]; ring
  have e2 : toRad (mapCenter.lng - STANFORD_COORDS.lng) / 2 = 143 / 600000 * π := by
    simp only [toRad, mapCenter, STANFORD_COORDS]; ring
  have e3 : toRad STANFORD_COORDS.lat = 14971 / 72000 * π := by
    simp only [toRad, STANFORD_COORDS]; ring
  have e4 : toRad mapCenter.lat = 373861 / 1800000 * π := by
    simp only [toRad, mapCenter]; ring
  simp only [haversineTerm]
  rw [e1, e2, e3, e4, sin_neg, neg_mul_neg]
  obtain ⟨s1, s2⟩ := sin_interval (23 / 200000 * π) 0.00036128 0.00036129
    (by norm_num) (by linarith) (by linarith) (by norm_num)
  obtain ⟨t1, t2⟩ := sin_interval (143 / 600000 * π) 0.00074874 0.00074875
    (by norm_num) (by linarith) (by linarith) (by norm_num)
  obtain ⟨c1, c2⟩ := cos_interval (14971 / 72000 * π) 0.65323 0.65324
    (by norm_num) (by linarith) (by linarith) (by norm_num)
  obtain ⟨d1, d2⟩ := cos_interval (373861 / 1800000 * π) 0.65251 0.65252
    (by norm_num) (by linarith) (by linarith) (by norm_num)
  generalize sin (23 / 200000 * π) = sx at *
  generalize sin (143 / 600000 * π) = sy at *
  generalize cos (14971 / 72000 * π) = cx at *
  generalize cos (373861 / 1800000 * π) = cy at *
  have s1' : (0.00036127 : ℝ) ≤ sx := le_trans (by norm_num) s1
  have t1' : (0.00074873 : ℝ) ≤ sy := le_trans (by norm_num) t1
  have c1' : (0.7923 : ℝ) ≤ cx := le_trans (by norm_num) c1
  have c2' : cx ≤ (0.7962 : ℝ) := le_trans c2 (by norm_num)
  have d1' : (0.7927 : ℝ) ≤ cy := le_trans (by norm_num) d1
  have d2' : cy ≤ (0.7966 : ℝ) := le_trans d2 (by norm_num)
  have sx0 : (0 : ℝ) ≤ sx := le_trans (by norm_num) s1'
  have sy0 : (0 : ℝ) ≤ sy := le_trans (by norm_num) t1'
  have cx0 : (0 : ℝ) ≤ cx := le_trans (by norm_num) c1'
  have cy0 : (0 : ℝ) ≤ cy := le_trans (by norm_num) d1'
  constructor
  · calc (4.82e-7 : ℝ) ≤ 0.00036127 * 0.00036127 + 0.00074873 * 0.00074873 * 0.7923 * 0.7927 := by
          norm_num
      _ ≤ sx * sx + sy * sy * cx * cy := by gcongr
  · calc sx * sx + sy * sy * cx * cy
        ≤ 0.00036129 * 0.00036129 + 0.00074875 * 0.00074875 * 0.7962 * 0.7966 := by gcongr
      _ ≤ (4.87e-7 : ℝ) := by norm_num

/-- For a haversine term in `[0, 1)` the distance is `3958.8 * 2 * arcsin √h`,
which lies between `7917.6 * √h` and `7917.6 * √h / √(1 - h)`. -/
theorem getDistanceMiles_bounds (a b : LatLng) (h1 : haversineTerm a b < 1) :
    3958.8 * (2 * √(haversineTerm a b)) ≤ getDistanceMiles a b ∧
      getDistanceMiles a b ≤
        3958.8 * (2 * (√(haversineTerm a b) / √(1 - haversineTerm a b))) := by
  have h0 := haversineTerm_nonneg a b
  have hpos : 0 < √(1 - haversineTerm a b) := Real.sqrt_pos.2 (by linarith)
  have e : getDistanceMiles a b =
      3958.8 * (2 * arctan (√(haversineTerm a b) / √(1 - haversineTerm a b))) := by
    simp only [getDistanceMiles, atan2, hpos, if_true]
  have l := le_arctan_sqrt h0 h1
  have u := arctan_le_self_of_nonneg
    (div_nonneg (Real.sqrt_nonneg (haversineTerm a b)) hpos.le)
  rw [e]
  constructor <;> nlinarith

theorem getDistanceMiles_stanford_mapCenter :
    5.49 ≤ getDistanceMiles STANFORD_COORDS mapCenter ∧
      getDistanceMiles STANFORD_COORDS mapCenter ≤ 5.53 := by
  obtain ⟨l, u⟩ := haversineTerm_stanford_mapCenter
  obtain ⟨dl, du⟩ := getDistanceMiles_bounds STANFORD_COORDS mapCenter (by linarith)
  generalize haversineTerm STANFORD_COORDS mapCenter = h at *
  have h0 : (0 : ℝ) ≤ h := le_trans (by norm_num) l
  have s1 : (6.94e-4 : ℝ) ≤ √h := Real.le_sqrt_of_sq_le (le_trans (by norm_num) l)
  have s2 : √h ≤ (6.98e-4 : ℝ) :=
    (Real.sqrt_le_left (by norm_num)).2 (le_trans u (by norm_num))
  have s3 : (0.9999 : ℝ) ≤ √(1 - h) := Real.le_sqrt_of_sq_le (by norm_num; linarith)
  have s4 : √h / √(1 - h) ≤ 6.98e-4 / 0.9999 :=
    div_le_div₀ (by norm_num) s2 (by norm_num) s3
  constructor
  · linarith
  · have : (6.98e-4 : ℝ) / 0.9999 ≤ 6.981e-4 := by norm_num
    linarith

/-- C3 (as stated, refuted): the distance between the reference point and the
map centre is not within 0.05 of 5.43 miles. -/
theorem getDistanceMiles_stanford_mapCenter_not_near_543 :
    ¬ (5.38 ≤ getDistanceMiles STANFORD_COORDS mapCenter ∧
        getDistanceMiles STANFORD_COORDS mapCenter ≤ 5.48) := by
  intro h
  have := getDistanceMiles_stanford_mapCenter.1
  linarith [h.2]

/-- C3 (amended): `getDistanceMiles` applied to the reference point
`{lat: 37.4275, lng: -122.1697}` and the map centre `{lat: 37.3861, lng: -122.0839}`
returns a value within 0.05 of 5.51 miles, that is in `[5.46, 5.56]`. -/
theorem getDistanceMiles_stanford_mapCenter_near_551 :
    5.46 ≤ getDistanceMiles STANFORD_COORDS mapCenter ∧
      getDistanceMiles STANFORD_COORDS mapCenter ≤ 5.56 := by
  obtain ⟨l, u⟩ := getDistanceMiles_stanford_mapCenter
  constructor <;> linarith

/-! ### The parts of handleSubmit -/

theorem fetchByType_ok_of (svc : Services) (position : LatLng) (t : String)
    (results : Option (List PlaceResult))
    (h : svc.nearbySearch position (SearchKey.type t) = Except.ok results) :
    fetchByType svc position t =
      Except.ok (((results.getD []).take 6).map fun place =>
        { name := place.name, position := place.location,
          distance := toFixed (getDistanceMiles position place.location) 2 }) := by
  simp only [fetchByType, h]

theorem fetchByType_error_of (svc : Services) (position : LatLng) (t : String)
    (h : svc.nearbySearch position (SearchKey.type t) = Except.error ()) :
    fetchByType svc position t = Except.error () := by
  simp only [fetchByType, h]

theorem fetchByType_ok_inv (svc : Services) (position : LatLng) (t : String) (l : List Poi)
    (h : fetchByType svc position t = Except.ok l) :
    ∃ results, svc.nearbySearch position (SearchKey.type t) = Except.ok results ∧
      l = ((results.getD []).take 6).map fun place =>
        { name := place.name, position := place.location,
          distance := toFixed (getDistanceMiles position place.location) 2 } := by
  cases hr : svc.nearbySearch position (SearchKey.type t) with
  | error e => simp [fetchByType, hr] at h
  | ok results =>
    refine ⟨results, rfl, ?_⟩
    rw [fetchByType_ok_of svc position t results hr] at h
    exact (Except.ok.inj h).symm

/-- The chain loop succeeds exactly when every lookup returns a list, and then
appends the entries of the matches in the order of the chain names. -/
theorem fetchChains_ok_iff (svc : Services) (position : LatLng) (kws : List String) :
    ∀ (acc chains : List ChainPoi),
      fetchChains svc position kws acc = Except.ok chains ↔
        (∀ kw ∈ kws, ∃ res,
            svc.nearbySearch position (SearchKey.keyword kw) = Except.ok (some res)) ∧
          chains = acc ++ kws.filterMap (chainLookup svc position) := by
  induction kws with
  | nil =>
    intro acc chains
    simp only [fetchChains, List.filterMap_nil, List.append_nil, List.not_mem_nil]
    constructor
    · intro h
      exact ⟨fun _ hk => absurd hk (by simp), (Except.ok.inj h).symm⟩
    · rintro ⟨-, rfl⟩
      rfl
  | cons kw rest ih =>
    intro acc chains
    cases hr : svc.nearbySearch position (SearchKey.keyword kw) with
    | error e =>
      simp only [fetchChains, hr]
      constructor
      · intro h
        cases h
      · rintro ⟨h, -⟩
        obtain ⟨res, hres⟩ := h kw (List.mem_cons_self _ _)
        rw [hr] at hres
        cases hres
    | ok r =>
      cases r with
      | none =>
        simp only [fetchChains, hr]
        constructor
        · intro h
          cases h
        · rintro ⟨h, -⟩
          obtain ⟨res, hres⟩ := h kw (List.mem_cons_self _ _)
          rw [hr] at hres
          cases hres
      | some res =>
        have hall : (∀ k ∈ kw :: rest, ∃ res,
            svc.nearbySearch position (SearchKey.keyword k) = Except.ok (some res)) ↔
            (∀ k ∈ rest, ∃ res,
              svc.nearbySearch position (SearchKey.keyword k) = Except.ok (some res)) := by
          constructor
          · intro h k hk
            exact h k (List.mem_cons_of_mem _ hk)
          · intro h k hk
            rcases List.mem_cons.1 hk with rfl | hk
            · exact ⟨res, hr⟩
            · exact h k hk
        rw [hall]
        cases hh : res.head? with
        | none =>
          have hl : chainLookup svc position kw = none := by
            simp [chainLookup, hr, chainEntry, hh]
          simp only [fetchChains, hr, hh, List.filterMap_cons, hl]
          exact ih acc chains
        | some place =>
          have hl : chainLookup svc position kw =
              some { chain := kw, name := place.name, position := place.location,
                     distance := toFixed (getDistanceMiles position place.location) 2 } := by
            simp [chainLookup, hr, chainEntry, hh]
          simp only [fetchChains, hr, hh, List.filterMap_cons, hl]
          rw [ih]
          simp only [List.append_assoc, List.singleton_append]

/-- What the `try` block pushes: the record built from the first geocoder
result, the three category lists and the chain list. -/
theorem processAddress_ok_some_iff (svc : Services) (addr : String) (e : Entry) :
    processAddress svc addr = Except.ok (some e) ↔
      ∃ first rest gyms groceries parks chains,
        svc.geocode addr = Except.ok (some (first :: rest)) ∧
        fetchByType svc first.location "gym" = Except.ok gyms ∧
        fetchByType svc first.location "grocery_or_supermarket" = Except.ok groceries ∧
        fetchByType svc first.location "park" = Except.ok parks ∧
        fetchChains svc first.location CHAINS [] = Except.ok chains ∧
        e = { address := addr, position := first.location,
              distanceFromStanford :=
                toFixed (getDistanceMiles STANFORD_COORDS first.location) 2,
              pois := { gyms := gyms, groceries := groceries, parks := parks,
                        chains := chains } } := by
  unfold processAddress
  cases hg : svc.geocode addr with
  | error err =>
    simp
  | ok resArr =>
    cases resArr with
    | none => simp
    | some l =>
      cases l with
      | nil => simp
      | cons first rest =>
        simp only [Option.getD_some, List.head?_cons]
        cases h1 : fetchByType svc first.location "gym" with
        | error e1 => simp [h1]
        | ok gyms =>
          cases h2 : fetchByType svc first.location "grocery_or_supermarket" with
          | error e2 => simp [h1, h2]
          | ok groceries =>
            cases h3 : fetchByType svc first.location "park" with
            | error e3 => simp [h1, h2, h3]
            | ok parks =>
              cases h4 : fetchChains svc first.location CHAINS [] with
              | error e4 => simp [h1, h2, h3, h4]
              | ok chains =>
                simp only [h1, h2, h3]
                constructor
                · intro h
                  refine ⟨first, rest, gyms, groceries, parks, chains, rfl, h1, h2, h3, h4, ?_⟩
                  exact (Option.some.inj (Except.ok.inj h)).symm
                · rintro ⟨f, r, g, gr, pk, ch, hf, hg1, hg2, hg3, hg4, rfl⟩
                  obtain ⟨rfl, rfl⟩ := List.cons.inj (Option.some.inj (Except.ok.inj hf))
                  rw [h1] at hg1
                  rw [h2] at hg2
                  rw [h3] at hg3
                  rw [h4] at hg4
                  cases hg1
                  cases hg2
                  cases hg3
                  cases hg4
                  rfl

theorem foldl_handleLine_data (svc : Services) (lines : List String) :
    ∀ st : SubmitState,
      (lines.foldl (handleLine svc) st).data =
        st.data ++ lines.filterMap fun addr => (processAddress svc addr).toOption.join := by
  induction lines with
  | nil => intro st; simp
  | cons addr rest ih =>
    intro st
    rw [List.foldl_cons, ih]
    cases h : processAddress svc addr with
    | error err => simp [handleLine, h, Except.toOption]
    | ok r =>
      cases r with
      | none => simp [handleLine, h, Except.toOption]
      | some e => simp [handleLine, h, Except.toOption]

/-- The array `data` holds, in input order, the records of the lines whose
`try` block reaches the push of line 103. -/
theorem handleSubmit_data (svc : Services) (lines : List String) :
    (handleSubmit svc lines).data =
      lines.filterMap fun addr => (processAddress svc addr).toOption.join := by
  simp [handleSubmit, foldl_handleLine_data]

theorem mem_handleSubmit_data_iff (svc : Services) (lines : List String) (e : Entry) :
    e ∈ (handleSubmit svc lines).data ↔
      ∃ addr ∈ lines, processAddress svc addr = Except.ok (some e) := by
  rw [handleSubmit_data, List.mem_filterMap]
  constructor
  · rintro ⟨addr, hmem, h⟩
    refine ⟨addr, hmem, ?_⟩
    cases hp : processAddress svc addr with
    | error err => simp [hp, Except.toOption] at h
    | ok r =>
      cases r with
      | none => simp [hp, Except.toOption] at h
      | some e2 =>
        simp [hp, Except.toOption] at h
        rw [h]
  · rintro ⟨addr, hmem, h⟩
    exact ⟨addr, hmem, by simp [h, Except.toOption]⟩

/-! ### Category lists -/

theorem take_min_length {α : Type} (n : ℕ) (l : List α) :
    l.take (min n l.length) = l.take n := by
  rcases Nat.le_total n l.length with h | h
  · rw [Nat.min_eq_left h]
  · rw [Nat.min_eq_right h, List.take_length, List.take_of_length_le h]

/-- C8: for every result of a category lookup, a list of candidates of any
length `n` or an absent result (read as the empty list), the category list is
made of the first `min(6, n)` candidates in the order of the provider, names and
positions unchanged, and has at most 6 entries. -/
theorem fetchByType_first_six (svc : Services) (position : LatLng) (t : String)
    (results : Option (List PlaceResult))
    (h : svc.nearbySearch position (SearchKey.type t) = Except.ok results) :
    ∃ l, fetchByType svc position t = Except.ok l ∧
      l.map (fun p => (p.name, p.position)) =
        ((results.getD []).take (min 6 (results.getD []).length)).map
          (fun place => (place.name, place.location)) ∧
      l.length = min 6 (results.getD []).length ∧
      l.length ≤ 6 ∧
      (results = none → l = []) := by
  refine ⟨_, fetchByType_ok_of svc position t results h, ?_, ?_, ?_, ?_⟩
  · rw [take_min_length, List.map_map]
    rfl
  · rw [List.length_map, List.length_take]
  · rw [List.length_map, List.length_take]
    exact Nat.min_le_left _ _
  · rintro rfl
    rfl

theorem fetchByType_first_six_witness :
    ∃ l, fetchByType svcSample origin "gym" = Except.ok l ∧
      l.map (fun p => p.name) = ["G1", "G2", "G3", "G4", "G5", "G6"] ∧
      l.length = 6 := by
  obtain ⟨l, h1, h2, h3, -, -⟩ :=
    fetchByType_first_six svcSample origin "gym" (some sevenGyms) (by simp [svcSample])
  refine ⟨l, h1, ?_, ?_⟩
  · have h := congrArg (List.map Prod.fst) h2
    simpa [sevenGyms] using h
  · simpa [sevenGyms] using h3

/-! ### Which addresses get a record -/

theorem fetchByType_isOk_iff (svc : Services) (position : LatLng) (t : String) :
    (∃ l, fetchByType svc position t = Except.ok l) ↔
      (svc.nearbySearch position (SearchKey.type t)).toBool = true := by
  cases hr : svc.nearbySearch position (SearchKey.type t) with
  | error e => simp [fetchByType, hr, Except.toBool]
  | ok results => simp [fetchByType, hr, Except.toBool]

theorem chains_all_iff (svc : Services) (position : LatLng) (kws : List String) :
    (kws.all fun kw =>
      match svc.nearbySearch position (SearchKey.keyword kw) with
      | Except.ok (some _) => true
      | _ => false) = true ↔
      ∀ kw ∈ kws, ∃ res,
        svc.nearbySearch position (SearchKey.keyword kw) = Except.ok (some res) := by
  rw [List.all_eq_true]
  constructor
  · intro h kw hk
    have := h kw hk
    split at this
    · rename_i res hres
      exact ⟨res, hres⟩
    · cases this
  · intro h kw hk
    obtain ⟨res, hres⟩ := h kw hk
    simp only [hres]

/-- The `try` block pushes a record exactly for the addresses that are resolved
and processed successfully. -/
theorem processAddress_isSome_iff (svc : Services) (addr : String) :
    (∃ e, processAddress svc addr = Except.ok (some e)) ↔ processedOk svc addr = true := by
  have key : (∃ e, processAddress svc addr = Except.ok (some e)) ↔
      ∃ first rest, svc.geocode addr = Except.ok (some (first :: rest)) ∧
        (∃ l, fetchByType svc first.location "gym" = Except.ok l) ∧
        (∃ l, fetchByType svc first.location "grocery_or_supermarket" = Except.ok l) ∧
        (∃ l, fetchByType svc first.location "park" = Except.ok l) ∧
        (∃ c, fetchChains svc first.location CHAINS [] = Except.ok c) := by
    constructor
    · rintro ⟨e, he⟩
      obtain ⟨first, rest, g, gr, pk, ch, h0, h1, h2, h3, h4, -⟩ :=
        (processAddress_ok_some_iff svc addr e).1 he
      exact ⟨first, rest, h0, ⟨g, h1⟩, ⟨gr, h2⟩, ⟨pk, h3⟩, ⟨ch, h4⟩⟩
    · rintro ⟨first, rest, h0, ⟨g, h1⟩, ⟨gr, h2⟩, ⟨pk, h3⟩, ⟨ch, h4⟩⟩
      exact ⟨_, (processAddress_ok_some_iff svc addr _).2
        ⟨first, rest, g, gr, pk, ch, h0, h1, h2, h3, h4, rfl⟩⟩
  rw [key]
  unfold processedOk
  cases hg : svc.geocode addr with
  | error err => simp
  | ok resArr =>
    cases resArr with
    | none => simp
    | some l =>
      cases l with
      | nil => simp
      | cons first rest =>
        have hc : (∃ c, fetchChains svc first.location CHAINS [] = Except.ok c) ↔
            ∀ kw ∈ CHAINS, ∃ res,
              svc.nearbySearch first.location (SearchKey.keyword kw) = Except.ok (some res) := by
          constructor
          · rintro ⟨c, h⟩
            exact ((fetchChains_ok_iff svc first.location CHAINS [] c).1 h).1
          · intro h
            exact ⟨_, (fetchChains_ok_iff svc first.location CHAINS [] _).2 ⟨h, rfl⟩⟩
        simp only [Bool.and_eq_true, chains_all_iff, ← hc, List.all_cons, List.all_nil,
          Bool.and_true, ← fetchByType_isOk_iff]
        constructor
        · rintro ⟨f, r, hf, h1, h2, h3, h4⟩
          obtain ⟨rfl, rfl⟩ := List.cons.inj (Option.some.inj (Except.ok.inj hf))
          exact ⟨⟨h1, h2, h3⟩, h4⟩
        · rintro ⟨⟨h1, h2, h3⟩, h4⟩
          exact ⟨first, rest, rfl, h1, h2, h3, h4⟩

theorem processAddress_address (svc : Services) (addr : String) (e : Entry)
    (h : processAddress svc addr = Except.ok (some e)) : e.address = addr := by
  obtain ⟨first, rest, g, gr, pk, ch, -, -, -, -, -, rfl⟩ :=
    (processAddress_ok_some_iff svc addr e).1 h
  rfl

theorem join_toOption_eq_some_iff (svc : Services) (addr : String) (e : Entry) :
    (processAddress svc addr).toOption.join = some e ↔
      processAddress svc addr = Except.ok (some e) := by
  cases hp : processAddress svc addr with
  | error err => simp [Except.toOption]
  | ok r =>
    cases r with
    | none => simp [Except.toOption]
    | some e2 => simp [Except.toOption]

theorem join_toOption_eq_none_iff (svc : Services) (addr : String) :
    (processAddress svc addr).toOption.join = none ↔ processedOk svc addr = false := by
  rw [← Bool.not_eq_true, ← processAddress_isSome_iff]
  cases hp : processAddress svc addr with
  | error err => simp [Except.toOption]
  | ok r =>
    cases r with
    | none => simp [Except.toOption]
    | some e2 => simp [Except.toOption]

theorem handleSubmit_addresses (svc : Services) (lines : List String) :
    (handleSubmit svc lines).data.map Entry.address = lines.filter (processedOk svc) := by
  rw [handleSubmit_data]
  induction lines with
  | nil => rfl
  | cons addr rest ih =>
    cases hj : (processAddress svc addr).toOption.join with
    | none =>
      have hno := (join_toOption_eq_none_iff svc addr).1 hj
      rw [List.filterMap_cons_none (f := fun a => (processAddress svc a).toOption.join) hj,
        List.filter_cons_of_neg (by simp [hno]), ih]
    | some e =>
      have hp := (join_toOption_eq_some_iff svc addr e).1 hj
      have hyes : processedOk svc addr = true :=
        (processAddress_isSome_iff svc addr).1 ⟨e, hp⟩
      have ha := processAddress_address svc addr e hp
      rw [List.filterMap_cons_some (f := fun a => (processAddress svc a).toOption.join) hj,
        List.filter_cons_of_pos hyes, List.map_cons, ih, ha]

/-! ### Evaluating toFixed -/

theorem toFixed_two_of_mem (x : ℝ) (n : ℕ) (h0 : 0 ≤ x) (h1 : (n : ℝ) ≤ x * 100 + 1 / 2)
    (h2 : x * 100 + 1 / 2 < n + 1) : toFixed x 2 = fixedDigits n 2 := by
  have hx : ¬ x < 0 := not_lt.2 h0
  have hfl : ⌊x * 10 ^ 2 + 1 / 2⌋₊ = n := by
    rw [Nat.floor_eq_iff (by positivity)]
    norm_num at h1 h2 ⊢
    exact ⟨h1, h2⟩
  simp only [toFixed, hx, if_false, hfl]

theorem toFixed_zero : toFixed 0 2 = "0.00" := by
  rw [toFixed_two_of_mem 0 0 le_rfl (by norm_num) (by norm_num)]
  decide

theorem getDistanceMiles_quarter :
    getDistanceMiles origin { lat := 0, lng := 90 } = 3958.8 * (π / 2) := by
  have h : haversineTerm origin { lat := 0, lng := 90 } = 1 / 2 := by
    rw [haversineTerm_eq]
    have e : (90 : ℝ) * π / 180 = π / 2 := by ring
    simp [toRad, origin, e]
  have hpos : (0 : ℝ) < √(1 - 1 / 2) := Real.sqrt_pos.2 (by norm_num)
  simp only [getDistanceMiles, h, atan2, hpos, if_true]
  rw [show (1 : ℝ) - 1 / 2 = 1 / 2 by norm_num, div_self (Real.sqrt_pos.2 (by norm_num)).ne',
    arctan_one]
  ring

theorem toFixed_quarter :
    toFixed (getDistanceMiles origin { lat := 0, lng := 90 }) 2 = "6218.47" := by
  have p1 := pi_gt_d6
  have p2 := pi_lt_d6
  rw [getDistanceMiles_quarter,
    toFixed_two_of_mem _ 621847 (by positivity) (by norm_num; linarith)
      (by norm_num; linarith)]
  decide

/-! ### The sample service -/

theorem processAddress_svcSample :
    processAddress svcSample "A" = Except.ok (some sampleEntry) := by
  rw [processAddress_ok_some_iff]
  refine ⟨{ location := origin }, [], _, _, _, _, by simp [svcSample],
    fetchByType_ok_of _ _ _ (some sevenGyms) (by simp [svcSample]),
    fetchByType_ok_of _ _ _ none (by simp [svcSample]),
    fetchByType_ok_of _ _ _ (some [{ name := "P", location := { lat := 0, lng := 90 } }])
      (by simp [svcSample]),
    (fetchChains_ok_iff _ _ _ _ _).2 ⟨?_, rfl⟩, ?_⟩
  · intro kw hk
    simp only [svcSample]
    split_ifs
    · exact ⟨_, rfl⟩
    · exact ⟨_, rfl⟩
  · simp [sampleEntry, sevenGyms, CHAINS, chainLookup, chainEntry, svcSample,
      getDistanceMiles_same, toFixed_zero, toFixed_quarter]

theorem handleSubmit_svcSample : (handleSubmit svcSample ["A"]).data = [sampleEntry] := by
  rw [handleSubmit_data]
  simp [processAddress_svcSample, Except.toOption]

/-! ### Stored distances and chain labels -/

theorem fetchByType_distance (svc : Services) (position : LatLng) (t : String) (l : List Poi)
    (h : fetchByType svc position t = Except.ok l) :
    ∀ p ∈ l, p.distance = toFixed (getDistanceMiles position p.position) 2 := by
  obtain ⟨results, -, rfl⟩ := fetchByType_ok_inv svc position t l h
  intro p hp
  obtain ⟨place, -, rfl⟩ := List.mem_map.1 hp
  rfl

theorem chainLookup_eq_some_iff (svc : Services) (position : LatLng) (kw : String)
    (c : ChainPoi) :
    chainLookup svc position kw = some c ↔
      ∃ res place, svc.nearbySearch position (SearchKey.keyword kw) = Except.ok (some res) ∧
        res.head? = some place ∧
        c = { chain := kw, name := place.name, position := place.location,
              distance := toFixed (getDistanceMiles position place.location) 2 } := by
  unfold chainLookup
  cases hr : svc.nearbySearch position (SearchKey.keyword kw) with
  | error e => simp
  | ok r =>
    cases r with
    | none => simp
    | some res =>
      cases hh : res.head? with
      | none => simp [chainEntry, hh]
      | some place =>
        simp only [chainEntry, hh, Option.map_some', Option.some.injEq, Except.ok.injEq]
        constructor
        · intro h
          exact ⟨res, place, rfl, hh, h.symm⟩
        · rintro ⟨res2, place2, h1, h2, h3⟩
          subst h1
          rw [hh] at h2
          cases h2
          exact h3.symm

theorem chains_label_sublist (svc : Services) (position : LatLng) (kws : List String) :
    ((kws.filterMap (chainLookup svc position)).map ChainPoi.chain).Sublist kws := by
  induction kws with
  | nil => simp
  | cons kw rest ih =>
    cases hl : chainLookup svc position kw with
    | none =>
      rw [List.filterMap_cons_none hl]
      exact ih.cons kw
    | some c =>
      obtain ⟨res, place, -, -, rfl⟩ := (chainLookup_eq_some_iff svc position kw c).1 hl
      rw [List.filterMap_cons_some hl, List.map_cons]
      exact ih.cons₂ kw

/-- The shape of every record of `data`. -/
theorem mem_data_shape (svc : Services) (lines : List String) (e : Entry)
    (he : e ∈ (handleSubmit svc lines).data) :
    ∃ first rest, e.address ∈ lines ∧
      svc.geocode e.address = Except.ok (some (first :: rest)) ∧
      e.position = first.location ∧
      fetchByType svc e.position "gym" = Except.ok e.pois.gyms ∧
      fetchByType svc e.position "grocery_or_supermarket" = Except.ok e.pois.groceries ∧
      fetchByType svc e.position "park" = Except.ok e.pois.parks ∧
      (∀ kw ∈ CHAINS, ∃ res,
        svc.nearbySearch e.position (SearchKey.keyword kw) = Except.ok (some res)) ∧
      e.pois.chains = CHAINS.filterMap (chainLookup svc e.position) ∧
      e.distanceFromStanford = toFixed (getDistanceMiles STANFORD_COORDS e.position) 2 := by
  obtain ⟨addr, hmem, hp⟩ := (mem_handleSubmit_data_iff svc lines e).1 he
  obtain ⟨first, rest, g, gr, pk, ch, h0, h1, h2, h3, h4, rfl⟩ :=
    (processAddress_ok_some_iff svc addr e).1 hp
  obtain ⟨h5, h6⟩ := (fetchChains_ok_iff svc first.location CHAINS [] ch).1 h4
  exact ⟨first, rest, hmem, h0, rfl, h1, h2, h3, h5, by simpa using h6, rfl⟩

/-- C10: in every record produced, the distance of each entry of `gyms`,
`groceries`, `parks` and `chains` is computed by `getDistanceMiles` from the
position of that record to the position of the entry; the label of each chain
entry is the keyword of `CHAINS` that was queried, whatever name the provider
returned; and only `distanceFromStanford` is computed from `STANFORD_COORDS`. -/
theorem entry_distances_from_own_position (svc : Services) (lines : List String)
    (e : Entry) (he : e ∈ (handleSubmit svc lines).data) :
    (∀ p ∈ e.pois.gyms, p.distance = toFixed (getDistanceMiles e.position p.position) 2) ∧
    (∀ p ∈ e.pois.groceries,
      p.distance = toFixed (getDistanceMiles e.position p.position) 2) ∧
    (∀ p ∈ e.pois.parks, p.distance = toFixed (getDistanceMiles e.position p.position) 2) ∧
    (∀ c ∈ e.pois.chains,
      c.distance = toFixed (getDistanceMiles e.position c.position) 2 ∧
      c.chain ∈ CHAINS ∧
      ∃ res place,
        svc.nearbySearch e.position (SearchKey.keyword c.chain) = Except.ok (some res) ∧
        res.head? = some place ∧ c.name = place.name ∧ c.position = place.location) ∧
    (e.pois.chains.map ChainPoi.chain).Sublist CHAINS ∧
    e.distanceFromStanford = toFixed (getDistanceMiles STANFORD_COORDS e.position) 2 := by
  obtain ⟨first, rest, -, -, -, h1, h2, h3, -, h5, h6⟩ := mem_data_shape svc lines e he
  refine ⟨fetchByType_distance _ _ _ _ h1, fetchByType_distance _ _ _ _ h2,
    fetchByType_distance _ _ _ _ h3, ?_, ?_, h6⟩
  · intro c hc
    rw [h5] at hc
    obtain ⟨kw, hkw, hl⟩ := List.mem_filterMap.1 hc
    obtain ⟨res, place, hr, hh, rfl⟩ := (chainLookup_eq_some_iff svc e.position kw c).1 hl
    exact ⟨rfl, hkw, res, place, hr, hh, rfl, rfl⟩
  · rw [h5]
    exact chains_label_sublist svc e.position CHAINS

theorem entry_distances_from_own_position_witness :
    sampleEntry ∈ (handleSubmit svcSample ["A"]).data ∧
    (∀ p ∈ sampleEntry.pois.parks,
      p.distance = toFixed (getDistanceMiles sampleEntry.position p.position) 2) ∧
    (∀ c ∈ sampleEntry.pois.chains, c.chain ∈ CHAINS) ∧
    sampleEntry.distanceFromStanford =
      toFixed (getDistanceMiles STANFORD_COORDS sampleEntry.position) 2 := by
  have hmem : sampleEntry ∈ (handleSubmit svcSample ["A"]).data := by
    simp [handleSubmit_svcSample]
  have h := entry_distances_from_own_position svcSample ["A"] sampleEntry hmem
  exact ⟨hmem, h.2.2.1, fun c hc => (h.2.2.2.1 c hc).2.1, h.2.2.2.2.2⟩

/-! ### Failures of geocoding and of lookups -/

theorem processedOk_false_of_geocode_failed (svc : Services) (addr : String)
    (h : svc.geocode addr = Except.error () ∨ svc.geocode addr = Except.ok none ∨
      svc.geocode addr = Except.ok (some [])) : processedOk svc addr = false := by
  rcases h with h | h | h <;> simp [processedOk, h]

/-- C7: for every batch of address lines, `data` holds exactly one record for
each line that is resolved and processed successfully, in input order, each
with the position of the first geocoder result of its own address; a line
whose geocoding throws or gives no result does not stop the others. In
particular, when the first of two addresses fails geocoding and the second
succeeds, `data` has exactly one entry, for the second address. -/
theorem handleSubmit_geocode_failure_isolated (svc : Services) (lines : List String) :
    (handleSubmit svc lines).data.map Entry.address = lines.filter (processedOk svc) ∧
    (∀ e ∈ (handleSubmit svc lines).data, ∃ first rest,
      svc.geocode e.address = Except.ok (some (first :: rest)) ∧
      e.position = first.location) ∧
    (∀ a1 a2 : String, lines = [a1, a2] →
      (svc.geocode a1 = Except.error () ∨ svc.geocode a1 = Except.ok none ∨
        svc.geocode a1 = Except.ok (some [])) →
      processedOk svc a2 = true →
      ∃ e, (handleSubmit svc lines).data = [e] ∧ e.address = a2) := by
  refine ⟨handleSubmit_addresses svc lines, ?_, ?_⟩
  · intro e he
    obtain ⟨first, rest, -, h0, h1, -⟩ := mem_data_shape svc lines e he
    exact ⟨first, rest, h0, h1⟩
  · rintro a1 a2 rfl h1 h2
    have hno := processedOk_false_of_geocode_failed svc a1 h1
    have ha := handleSubmit_addresses svc [a1, a2]
    rw [List.filter_cons_of_neg (by simp [hno]), List.filter_cons_of_pos h2,
      List.filter_nil] at ha
    cases hd : (handleSubmit svc [a1, a2]).data with
    | nil => rw [hd] at ha; cases ha
    | cons e tl =>
      rw [hd, List.map_cons] at ha
      obtain ⟨hea, htl⟩ := List.cons.inj ha
      rw [List.map_eq_nil_iff] at htl
      subst htl
      exact ⟨e, rfl, hea⟩

theorem handleSubmit_geocode_failure_isolated_witness :
    ∃ e, (handleSubmit svcSample ["B", "A"]).data = [e] ∧ e.address = "A" :=
  (handleSubmit_geocode_failure_isolated svcSample ["B", "A"]).2.2 "B" "A" rfl
    (Or.inl (by simp [svcSample]))
    (by simp [processedOk, svcSample, CHAINS, Except.toBool])

/-- C5 (as stated, refuted): a gym lookup that throws, while the grocery and
park lookups return a place each, leaves the address without any record. -/
theorem category_lookup_throw_drops_address :
    svcGymThrows.nearbySearch origin (SearchKey.type "gym") = Except.error () ∧
    svcGymThrows.nearbySearch origin (SearchKey.type "grocery_or_supermarket") =
      Except.ok (some [{ name := "P", location := origin }]) ∧
    svcGymThrows.nearbySearch origin (SearchKey.type "park") =
      Except.ok (some [{ name := "P", location := origin }]) ∧
    (handleSubmit svcGymThrows ["A"]).data = [] ∧
    (handleSubmit svcGymThrows ["A"]).errors = ["A"] := by
  refine ⟨by simp [svcGymThrows], by simp [svcGymThrows], by simp [svcGymThrows], ?_, ?_⟩ <;>
    simp [handleSubmit, handleLine, processAddress, fetchByType, svcGymThrows]

/-- C5 (amended): a category lookup that returns an absent result counts as
no results for that lookup alone: when no lookup of the address throws and
every chain lookup returns a list, the address yields a record whose three
category lists are each made of the first six results of their own lookup.
A category lookup that throws is caught by the handler of the whole address,
which then yields no record. -/
theorem category_lookup_isolation (svc : Services) (lines : List String) (addr : String)
    (first : GeocoderResult) (rest : List GeocoderResult) (hmem : addr ∈ lines)
    (hgeo : svc.geocode addr = Except.ok (some (first :: rest))) :
    (∀ rGym rGrocery rPark : Option (List PlaceResult),
      svc.nearbySearch first.location (SearchKey.type "gym") = Except.ok rGym →
      svc.nearbySearch first.location (SearchKey.type "grocery_or_supermarket") =
        Except.ok rGrocery →
      svc.nearbySearch first.location (SearchKey.type "park") = Except.ok rPark →
      (∀ kw ∈ CHAINS, ∃ res,
        svc.nearbySearch first.location (SearchKey.keyword kw) = Except.ok (some res)) →
      ∃ e ∈ (handleSubmit svc lines).data, e.address = addr ∧ e.position = first.location ∧
        e.pois.gyms.map (fun p => (p.name, p.position)) =
          ((rGym.getD []).take 6).map (fun place => (place.name, place.location)) ∧
        e.pois.groceries.map (fun p => (p.name, p.position)) =
          ((rGrocery.getD []).take 6).map (fun place => (place.name, place.location)) ∧
        e.pois.parks.map (fun p => (p.name, p.position)) =
          ((rPark.getD []).take 6).map (fun place => (place.name, place.location))) ∧
    (∀ t ∈ ["gym", "grocery_or_supermarket", "park"],
      svc.nearbySearch first.location (SearchKey.type t) = Except.error () →
      ∀ e ∈ (handleSubmit svc lines).data, e.address ≠ addr) := by
  constructor
  · intro rGym rGrocery rPark h1 h2 h3 h4
    refine ⟨_, (mem_handleSubmit_data_iff svc lines _).2 ⟨addr, hmem,
      (processAddress_ok_some_iff svc addr _).2 ⟨first, rest, _, _, _, _, hgeo,
        fetchByType_ok_of _ _ _ _ h1, fetchByType_ok_of _ _ _ _ h2,
        fetchByType_ok_of _ _ _ _ h3,
        (fetchChains_ok_iff _ _ _ _ _).2 ⟨h4, rfl⟩, rfl⟩⟩, rfl, rfl, ?_, ?_, ?_⟩ <;>
      simp only [List.map_map] <;> rfl
  · intro t ht hthrow e he hea
    obtain ⟨f2, r2, -, h0, hpos, h1, h2, h3, -⟩ := mem_data_shape svc lines e he
    rw [hea, hgeo] at h0
    obtain ⟨rfl, rfl⟩ := List.cons.inj (Option.some.inj (Except.ok.inj h0))
    rw [hpos] at h1 h2 h3
    have hf := fetchByType_error_of svc first.location t hthrow
    simp only [List.mem_cons, List.mem_singleton, List.not_mem_nil, or_false] at ht
    rcases ht with rfl | rfl | rfl
    · rw [hf] at h1; cases h1
    · rw [hf] at h2; cases h2
    · rw [hf] at h3; cases h3

theorem category_lookup_isolation_witness :
    ∃ e ∈ (handleSubmit svcSample ["A"]).data, e.address = "A" ∧
      e.pois.gyms.map (fun p => p.name) = ["G1", "G2", "G3", "G4", "G5", "G6"] ∧
      e.pois.groceries = [] ∧
      e.pois.parks.map (fun p => p.name) = ["P"] := by
  obtain ⟨e, he, h1, -, h2, h3, h4⟩ :=
    (category_lookup_isolation svcSample ["A"] "A" { location := origin } []
      (by simp) (by simp [svcSample])).1
      (some sevenGyms) none (some [{ name := "P", location := { lat := 0, lng := 90 } }])
      (by simp [svcSample]) (by simp [svcSample]) (by simp [svcSample])
      (by
        intro kw _
        simp only [svcSample]
        split_ifs
        · exact ⟨_, rfl⟩
        · exact ⟨_, rfl⟩)
  refine ⟨e, he, h1, ?_, ?_, ?_⟩
  · have h := congrArg (List.map Prod.fst) h2
    simpa [sevenGyms] using h
  · simpa using h3
  · have h := congrArg (List.map Prod.fst) h4
    simpa using h

/-- For an empty result list the chain loop skips the keyword: it gets no
entry, the loop goes on to the end, and fewer entries than keywords are stored. -/
theorem chain_lookup_empty_list_skipped (svc : Services) (position : LatLng) (kw : String)
    (hkw : kw ∈ CHAINS)
    (hall : ∀ k ∈ CHAINS, ∃ res,
      svc.nearbySearch position (SearchKey.keyword k) = Except.ok (some res))
    (hempty : svc.nearbySearch position (SearchKey.keyword kw) = Except.ok (some [])) :
    ∃ chains, fetchChains svc position CHAINS [] = Except.ok chains ∧
      (∀ c ∈ chains, c.chain ≠ kw) ∧ chains.length < CHAINS.length := by
  refine ⟨_, (fetchChains_ok_iff svc position CHAINS [] _).2 ⟨hall, rfl⟩, ?_, ?_⟩
  · intro c hc hck
    rw [List.nil_append] at hc
    obtain ⟨k, -, hl⟩ := List.mem_filterMap.1 hc
    obtain ⟨res, place, hr, hh, rfl⟩ := (chainLookup_eq_some_iff svc position k c).1 hl
    simp only at hck
    subst hck
    rw [hempty] at hr
    obtain rfl := Option.some.inj (Except.ok.inj hr)
    cases hh
  · rw [List.nil_append]
    have hnone : chainLookup svc position kw = none := by
      simp [chainLookup, hempty, chainEntry]
    have hsub := chains_label_sublist svc position CHAINS
    by_contra hlen
    have heq := hsub.eq_of_length_le (by rw [List.length_map]; exact not_lt.1 hlen)
    have hmem : kw ∈ (CHAINS.filterMap (chainLookup svc position)).map ChainPoi.chain := by
      rw [heq]; exact hkw
    obtain ⟨c, hc, hck⟩ := List.mem_map.1 hmem
    obtain ⟨k, -, hl⟩ := List.mem_filterMap.1 hc
    obtain ⟨res, place, -, -, rfl⟩ := (chainLookup_eq_some_iff svc position k c).1 hl
    simp only at hck
    subst hck
    rw [hnone] at hl
    cases hl

/-- C6 (the code at the failing input): when the lookup for the keyword
`Target` returns an absent result, the index `res[0]` of line 91 throws, the
handler of the address catches it, and no record is produced for the address,
although every other lookup returned a list. -/
theorem chain_lookup_absent_drops_address :
    svcTargetAbsent.nearbySearch origin (SearchKey.keyword "Target") = Except.ok none ∧
    processAddress svcTargetAbsent "A" = Except.error () ∧
    (handleSubmit svcTargetAbsent ["A"]).data = [] ∧
    (handleSubmit svcTargetAbsent ["A"]).errors = ["A"] := by
  have hp : processAddress svcTargetAbsent "A" = Except.error () := by
    simp [processAddress, fetchByType, fetchChains, CHAINS, svcTargetAbsent]
  refine ⟨by simp [svcTargetAbsent], hp, ?_, ?_⟩ <;> simp [handleSubmit, handleLine, hp]

/-! ### Rounding of the stored distances -/

/-- For a non-negative number, `toFixed(2)` is the number rounded to two
decimal places. -/
theorem toFixed_isRounded2 (d : ℝ) (h0 : 0 ≤ d) : IsRounded2 (toFixed d 2) d := by
  have hpos : (0 : ℝ) ≤ d * 100 + 1 / 2 := by positivity
  have h1 := Nat.floor_le hpos
  have h2 := Nat.lt_floor_add_one (d * 100 + 1 / 2)
  refine ⟨⌊d * 100 + 1 / 2⌋₊, toFixed_two_of_mem d _ h0 h1 h2, ?_⟩
  rw [abs_le]
  constructor <;> linarith

/-- C9 (as stated, refuted): the park of the sample record is stored with the
distance `6218.47`, a string of two decimals, while `getDistanceMiles` returns
`3958.8 * π / 2`, which is strictly between 6218.467 and 6218.47. -/
theorem stored_distance_not_full_precision :
    ∃ e ∈ (handleSubmit svcSample ["A"]).data, ∃ p ∈ e.pois.parks,
      p.distance = "6218.47" ∧
      getDistanceMiles e.position p.position ≠ 6218.47 ∧
      6218.467 < getDistanceMiles e.position p.position ∧
      getDistanceMiles e.position p.position < 6218.47 := by
  have p1 := pi_gt_d6
  have p2 := pi_lt_d6
  have hd : getDistanceMiles sampleEntry.position { lat := 0, lng := 90 } =
      3958.8 * (π / 2) := getDistanceMiles_quarter
  refine ⟨sampleEntry, by simp [handleSubmit_svcSample],
    { name := "P", position := { lat := 0, lng := 90 }, distance := "6218.47" },
    by simp [sampleEntry], rfl, ?_, ?_, ?_⟩
  · show getDistanceMiles sampleEntry.position { lat := 0, lng := 90 } ≠ 6218.47
    rw [hd]
    intro h
    linarith
  · show 6218.467 < getDistanceMiles sampleEntry.position { lat := 0, lng := 90 }
    rw [hd]
    linarith
  · show getDistanceMiles sampleEntry.position { lat := 0, lng := 90 } < 6218.47
    rw [hd]
    linarith

/-- C9 (amended): the distance stored in every place, every chain match and in
`distanceFromStanford` is the string that `toFixed(2)` returns for the value
returned by `getDistanceMiles`, so the rounding happens when the value is
stored, and the display inserts the stored string unchanged; for every
non-negative number below `10 ^ 21`, `toFixed(2)` is that number rounded to two
decimal places. -/
theorem stored_distances_rounded (svc : Services) (lines : List String) (e : Entry)
    (he : e ∈ (handleSubmit svc lines).data) :
    (∀ p ∈ e.pois.gyms ++ e.pois.groceries ++ e.pois.parks,
      p.distance = toFixed (getDistanceMiles e.position p.position) 2 ∧
      renderPoi p =
        p.name ++ " — " ++ toFixed (getDistanceMiles e.position p.position) 2 ++ " mi") ∧
    (∀ c ∈ e.pois.chains,
      c.distance = toFixed (getDistanceMiles e.position c.position) 2 ∧
      renderChain c =
        c.chain ++ ": " ++ c.name ++ " — " ++
          toFixed (getDistanceMiles e.position c.position) 2 ++ " mi") ∧
    e.distanceFromStanford = toFixed (getDistanceMiles STANFORD_COORDS e.position) 2 ∧
    renderDistanceFromStanford e =
      "Distance from Stanford: " ++
        toFixed (getDistanceMiles STANFORD_COORDS e.position) 2 ++ " mi" ∧
    (∀ x : ℝ, 0 ≤ x → x < 10 ^ 21 → IsRounded2 (toFixed x 2) x) := by
  obtain ⟨first, rest, -, -, -, h1, h2, h3, -, h5, h6⟩ := mem_data_shape svc lines e he
  have hp : ∀ p ∈ e.pois.gyms ++ e.pois.groceries ++ e.pois.parks,
      p.distance = toFixed (getDistanceMiles e.position p.position) 2 := by
    intro p hp
    rcases List.mem_append.1 hp with hp | hp
    · rcases List.mem_append.1 hp with hp | hp
      · exact fetchByType_distance _ _ _ _ h1 p hp
      · exact fetchByType_distance _ _ _ _ h2 p hp
    · exact fetchByType_distance _ _ _ _ h3 p hp
  have hc : ∀ c ∈ e.pois.chains,
      c.distance = toFixed (getDistanceMiles e.position c.position) 2 := by
    intro c hc
    rw [h5] at hc
    obtain ⟨kw, -, hl⟩ := List.mem_filterMap.1 hc
    obtain ⟨res, place, -, -, rfl⟩ := (chainLookup_eq_some_iff svc e.position kw c).1 hl
    rfl
  refine ⟨?_, ?_, h6, ?_, ?_⟩
  · intro p hmem
    have hd := hp p hmem
    exact ⟨hd, by rw [renderPoi, hd]⟩
  · intro c hmem
    have hd := hc c hmem
    exact ⟨hd, by rw [renderChain, hd]⟩
  · rw [renderDistanceFromStanford, h6]
  · intro x h0 _
    exact toFixed_isRounded2 x h0

theorem stored_distances_rounded_witness :
    sampleEntry ∈ (handleSubmit svcSample ["A"]).data ∧
    (∀ p ∈ sampleEntry.pois.gyms ++ sampleEntry.pois.groceries ++ sampleEntry.pois.parks,
      p.distance = toFixed (getDistanceMiles sampleEntry.position p.position) 2) ∧
    renderDistanceFromStanford sampleEntry =
      "Distance from Stanford: " ++
        toFixed (getDistanceMiles STANFORD_COORDS sampleEntry.position) 2 ++ " mi" ∧
    IsRounded2 (toFixed (1234567 / 1000) 2) (1234567 / 1000) := by
  have hmem : sampleEntry ∈ (handleSubmit svcSample ["A"]).data := by
    simp [handleSubmit_svcSample]
  have h := stored_distances_rounded svcSample ["A"] sampleEntry hmem
  exact ⟨hmem, fun p hp => (h.1 p hp).1, h.2.2.2.1,
    h.2.2.2.2 (1234567 / 1000) (by norm_num) (by norm_num)⟩

end Dashboard
